import Mathlib

/-!
Verification development for the `pysnow` request pipeline
(`pysnow/request.py`, class `PreparedRequest`).

The source file `request.py` is embedded shallowly below.  Collaborator
classes that `request.py` imports (`Query`, `Response`, `Report`,
`InvalidUsage`) are not part of the sources at hand; where a property
depends on their behaviour, they are modelled from the specification and
each such definition carries a doc comment saying so.

Conventions of the embedding:
  * Python dictionaries of string parameters become association lists
    `List (String × String)`.
  * Python's mutable `self` becomes explicit state passing on the
    structure `PreparedRequest`.
  * Network I/O becomes an event trace: every prepared-and-sent HTTP
    request appears as an `Ev.http` event, and every write to the report
    appears as an `Ev.setReportParams` event, in program order.
  * The server is an environment `Env : Request → List Record` mapping a
    dispatched request to the records its response parses to.
  * Fallible paths return `Except PySnowErr`.
-/

/-- Association list of wire-level query parameters (string keys, scalar
string-rendered values). -/
abbrev Params : Type := List (String × String)

/-- A Python value as far as this pipeline inspects one: `request.py` only
ever distinguishes strings (and their truthiness / leading character) from
non-string values, and renders values with `%s`. -/
inductive PyVal
  | vstr (s : String)
  | vint (n : Int)
  deriving DecidableEq, Repr

/-- Python truthiness of the modelled values: empty string and zero are
falsy. -/
def PyVal.truthy : PyVal → Bool
  | .vstr s => s ≠ ""
  | .vint n => n ≠ 0

/-- Python `str()` / `%s` rendering of the modelled values. -/
def PyVal.render : PyVal → String
  | .vstr s => s
  | .vint n => toString n

/-- A JSON-serialisable Python value, the argument type of `json.dumps` as
used by `insert` and `update`. -/
inductive JVal
  | jnull
  | jbool (b : Bool)
  | jint (n : Int)
  | jstr (s : String)
  | jarr (xs : List JVal)
  | jobj (kvs : List (String × JVal))

/-- `isinstance(payload, dict)` on a `JVal`. -/
def JVal.isObj : JVal → Bool
  | .jobj _ => true
  | _ => false

/-- Python `str.startswith`, computed on the character data (so that it
evaluates on concrete inputs). -/
def strStartsWith (s p : String) : Bool :=
  p.data.isPrefixOf s.data

/-- String escaping as performed by `json.dumps` on the characters this
development exercises (backslash and double quote). -/
def jsonEscape (s : String) : String :=
  (s.replace "\\" "\\\\").replace "\"" "\\\""

mutual

/-- `json.dumps` with its default separators. -/
def jsonDumps : JVal → String
  | .jnull => "null"
  | .jbool true => "true"
  | .jbool false => "false"
  | .jint n => toString n
  | .jstr s => "\"" ++ jsonEscape s ++ "\""
  | .jarr xs => "[" ++ jsonDumpsArr xs ++ "]"
  | .jobj kvs => "\x7b" ++ jsonDumpsObj kvs ++ "\x7d"

/-- Comma-joined rendering of a JSON array body. -/
def jsonDumpsArr : List JVal → String
  | [] => ""
  | [x] => jsonDumps x
  | x :: y :: xs => jsonDumps x ++ ", " ++ jsonDumpsArr (y :: xs)

/-- Comma-joined rendering of a JSON object body. -/
def jsonDumpsObj : List (String × JVal) → String
  | [] => ""
  | [(k, v)] => "\"" ++ jsonEscape k ++ "\": " ++ jsonDumps v
  | (k, v) :: e :: kvs =>
      "\"" ++ jsonEscape k ++ "\": " ++ jsonDumps v ++ ", " ++ jsonDumpsObj (e :: kvs)

end

/-- Errors surfaced by the pipeline.  `invalidUsage` embeds
`pysnow.exceptions.InvalidUsage`; `noResults` / `multipleResults` embed the
"no records" / "multiple records" conditions of the response collaborator;
`keyError` embeds a Python `KeyError` on a record field lookup. -/
inductive PySnowErr
  | invalidUsage (msg : String)
  | noResults
  | multipleResults
  | keyError (k : String)
  deriving DecidableEq, Repr

/-- A record: an opaque mapping of field name to value, as returned by the
transport layer. -/
abbrev Record : Type := List (String × String)

/-- Python `record[k]`: the value at field `k`, or a `KeyError`. -/
def recordGet (r : Record) (k : String) : Except PySnowErr String :=
  match (r : List (String × String)).lookup k with
  | some v => .ok v
  | none => .error (.keyError k)

/-- One wire-level HTTP request, as assembled by
`PreparedRequest._send` from method, URL, query params and body. -/
structure Request where
  method : String
  url : String
  params : Params
  data : Option String
  deriving DecidableEq, Repr

/-- One observable event of the dispatcher: a write to the report's
`request_params`, or the preparation-and-dispatch of an HTTP request. -/
inductive Ev
  | setReportParams (p : Params)
  | http (r : Request)
  deriving DecidableEq, Repr

/-- The HTTP requests dispatched in an event trace, in order. -/
def httpOf (evs : List Ev) : List Request :=
  evs.filterMap fun e =>
    match e with
    | .http r => some r
    | _ => none

/-- The server environment: which records a dispatched request's response
parses to. -/
abbrev Env : Type := Request → List Record

/-- Modelled from the spec: the instrumentation sink `pysnow.report.Report`,
whose source is not in this repository.  The spec (§4.4) describes it as a
passive holder that "stores last-used request params and is updated by the
dispatcher immediately before each send"; the timing/response metadata it
also holds is not touched by any claim and is omitted. -/
structure Report where
  request_params : Option Params
  deriving DecidableEq, Repr

/-- The state of a `pysnow.request.PreparedRequest` object, together with
the borrowed session state it can observe and mutate
(`self._session.headers`). -/
structure PreparedRequest where
  request_params : Params
  generator_size : Option Int
  enable_reporting : Bool
  raise_on_empty : Bool
  base_url : String
  base_path : String
  api_path : String
  /-- `self._url`, set by `__init__` and mutated by `custom`. -/
  url : String
  /-- `self._session.headers`: shared session state, mutated by `custom`. -/
  session_headers : Params
  /-- `self._report`: `None` unless reporting is enabled. -/
  report : Option Report
  deriving DecidableEq, Repr

/-- `PreparedRequest._get_url(sys_id)`: concatenates the three base
segments; a truthy `sys_id` is appended after a `/`, a falsy one
(`None`, `""`, `0`) is ignored. -/
def PreparedRequest.get_url (st : PreparedRequest) (sys_id : Option PyVal) : String :=
  let url_str := st.base_url ++ st.base_path ++ st.api_path
  match sys_id with
  | some v => if v.truthy then url_str ++ "/" ++ v.render else url_str
  | none => url_str

/-- `PreparedRequest.__init__`: stores the configuration, computes
`self._url = self._get_url()`, and creates a `Report` exactly when
reporting is enabled. -/
def PreparedRequest.init (request_params : Params) (generator_size : Option Int)
    (enable_reporting raise_on_empty : Bool)
    (base_url base_path api_path : String) (session_headers : Params) :
    PreparedRequest :=
  let st : PreparedRequest :=
    { request_params := request_params
      generator_size := generator_size
      enable_reporting := enable_reporting
      raise_on_empty := raise_on_empty
      base_url := base_url
      base_path := base_path
      api_path := api_path
      url := ""
      session_headers := session_headers
      report := if enable_reporting then some ⟨none⟩ else none }
  { st with url := st.get_url none }

/-- `PreparedRequest._send(method, url=None, **kwargs)`: resolves the URL
(`url or self._url`, so a `None` or empty override falls back to the stored
URL), takes `params` from the keyword arguments when present and the
per-request defaults otherwise (`kwargs.pop('params',
self._request_params)` — the override replaces the defaults wholesale),
records the final params in the report when reporting is enabled, then
prepares and sends the request.  Returns the new state, the event trace and
the dispatched request. -/
def PreparedRequest.send (st : PreparedRequest) (method : String)
    (urlOverride : Option String) (paramsOverride : Option Params)
    (data : Option String) : PreparedRequest × List Ev × Request :=
  let url :=
    match urlOverride with
    | some u => if u = "" then st.url else u
    | none => st.url
  let params := paramsOverride.getD st.request_params
  let req : Request := ⟨method, url, params, data⟩
  let st1 :=
    if st.enable_reporting then
      { st with report := st.report.map fun r => { r with request_params := some params } }
    else st
  let evs : List Ev :=
    if st.enable_reporting then [.setReportParams params, .http req] else [.http req]
  (st1, evs, req)

/-- A query specification as accepted by the encoder: a raw filter string,
a flat key/value mapping, or a structured builder expression (represented
here by the filter string it renders to, since rendering is the only
capability the pipeline uses). -/
inductive QuerySpec
  | qstr (s : String)
  | qmap (kvs : List (String × String))
  | qbuilder (rendered : String)
  deriving DecidableEq, Repr

/-- Modelled from the spec: rendering of a `QuerySpec` to the wire-level
filter string (`pysnow.query.Query`'s query handling is not in this
repository).  A string passes through untouched (§4.1 "trusted
passthrough"); a mapping renders its scalar pairs; a builder renders to its
filter string. -/
def QuerySpec.render : QuerySpec → String
  | .qstr s => s
  | .qmap kvs => String.intercalate "^" (kvs.map fun kv => kv.1 ++ "=" ++ kv.2)
  | .qbuilder rendered => rendered

/-- Modelled from the spec: the system default page size the encoder falls
back to when `generator_size` is unset (§4.1; the spec does not name the
value, only that one exists). -/
def systemDefaultPageSize : Int := 500

/-- Modelled from the spec: the QueryEncoder state (`pysnow.query.Query`,
not in this repository).  Per §4.1 and the ComposedParams invariant (§3),
it holds the rendered filter, the caller's per-request default params, and
at most one of the record-cap / page-size parameters, plus the optional
projection, offset and sorting parameters. -/
structure Query where
  filter : String
  base : Params
  cap : Option Int := none
  pageSize : Option Int := none
  fieldsParam : Option String := none
  offsetParam : Option Int := none
  sortParam : Option String := none
  deriving DecidableEq, Repr

/-- Modelled from the spec: `Query(query, request_params)` — stores the
rendered filter and the per-request default params. -/
def Query.make (q : QuerySpec) (request_params : Params) : Query :=
  { filter := q.render, base := request_params }

/-- Modelled from the spec: `set_limit` sets the explicit record-cap
parameter (§4.1 pagination policy). -/
def Query.set_limit (q : Query) (n : Int) : Query :=
  { q with cap := some n }

/-- Modelled from the spec: `set_generator_size` sets the streaming
page-size parameter from `generator_size`, "falling back to a system
default if unset" (§4.1). -/
def Query.set_generator_size (q : Query) (size : Option Int) : Query :=
  { q with pageSize := some (size.getD systemDefaultPageSize) }

/-- Modelled from the spec: `set_fields` — an empty list is omitted,
otherwise the fields render as a comma-joined ordered list (§4.1). -/
def Query.set_fields (q : Query) (fields : List String) : Query :=
  match fields with
  | [] => q
  | _ => { q with fieldsParam := some (String.intercalate "," fields) }

/-- Modelled from the spec: `set_offset` — passed through as an integer
parameter if provided, no validation (§4.1). -/
def Query.set_offset (q : Query) (offset : Option Int) : Query :=
  { q with offsetParam := offset }

/-- Modelled from the spec: rendering of one `order_by` entry — a leading
`-` marker is stripped and the field flagged descending, otherwise the
entry renders as itself (§4.1; the spec fixes the marker and ordering, not
the wire syntax of the descending flag). -/
def renderSortEntry (e : String) : String :=
  if strStartsWith e "-" then "DESC:" ++ e.drop 1 else e

/-- Modelled from the spec: `set_sorting` — entries join in input order,
earlier entries having higher priority; an empty list is omitted (§4.1). -/
def Query.set_sorting (q : Query) (order_by : List String) : Query :=
  match order_by with
  | [] => q
  | _ => { q with sortParam := some (String.intercalate "," (order_by.map renderSortEntry)) }

/-- One optional wire parameter: a singleton entry when the value is
present, nothing when it is absent. -/
def optEntry (k : String) (v : Option String) : Params :=
  match v with
  | some s => [(k, s)]
  | none => []

/-- Modelled from the spec: `as_dict` — the flat ComposedParams mapping,
string keys to scalar values (§4.1).  The wire names of the record-cap and
page-size parameters are not fixed by the spec; they are rendered here
under the distinct keys `"record_cap"` and `"page_size"`, matching the
spec's statement that they are distinct parameters, at most one present. -/
def Query.as_dict (q : Query) : Params :=
  q.base
    ++ [("query", q.filter)]
    ++ optEntry "record_cap" (q.cap.map toString)
    ++ optEntry "page_size" (q.pageSize.map toString)
    ++ optEntry "fields" q.fieldsParam
    ++ optEntry "offset" (q.offsetParam.map toString)
    ++ optEntry "sorting" q.sortParam

/-- `PreparedRequest._get_request_params(query, fields, limit, order_by,
offset)`: builds a `Query` over the per-request defaults; if `limit` is
falsy (`None` or `0`) it sets the generator page size, otherwise the
explicit limit; then fields, offset and sorting; and renders the dict. -/
def PreparedRequest.get_request_params (st : PreparedRequest) (query : QuerySpec)
    (fields : List String) (limit : Option Int) (order_by : List String)
    (offset : Option Int) : Params :=
  let qp := Query.make query st.request_params
  let qp :=
    match limit with
    | none => qp.set_generator_size st.generator_size
    | some n => if n = 0 then qp.set_generator_size st.generator_size else qp.set_limit n
  let qp := qp.set_fields fields
  let qp := qp.set_offset offset
  let qp := qp.set_sorting order_by
  qp.as_dict

/-- Python truthiness of the `limit` option (`not limit` in
`_get_request_params`): `None` and `0` are falsy. -/
def limitTruthy : Option Int → Bool
  | none => false
  | some n => n ≠ 0

/-- Modelled from the spec: `Response.one()` (`pysnow.response.Response` is
not in this repository).  Per §4.3: zero records is a "no records" failure
when `raise_on_empty` is true and an empty sentinel otherwise; more than
one record is always a "multiple records" failure; otherwise the single
record is returned. -/
def responseOne (records : List Record) (raise_on_empty : Bool) : Except PySnowErr Record :=
  match records with
  | [] => if raise_on_empty then .error .noResults else .ok []
  | [r] => .ok r
  | _ => .error .multipleResults

/-- `PreparedRequest.get(**kwargs)`: composes the request params and
dispatches a GET with them; the response parses to the environment's
records. -/
def PreparedRequest.get (st : PreparedRequest) (env : Env) (query : QuerySpec)
    (fields : List String) (limit : Option Int) (order_by : List String)
    (offset : Option Int) : PreparedRequest × List Ev × List Record :=
  let rp := st.get_request_params query fields limit order_by offset
  let (st1, evs, req) := st.send "GET" none (some rp) none
  (st1, evs, env req)

/-- `dict.update` on the session's header mapping: keys of `new` override,
others are kept. -/
def headersUpdate (old new : Params) : Params :=
  old.filter (fun kv => (new.lookup kv.1).isNone) ++ new

/-- The `InvalidUsage` message raised by `custom` for a malformed
`path_append`. -/
def pathAppendErrMsg : String :=
  "Argument path_append must be a string in the following format: /path-to-append[/.../...]"

/-- `PreparedRequest.custom(method, path_append, headers)`: first merges a
truthy (non-empty) `headers` mapping into the shared session headers; then,
if `path_append` is not `None`, either appends it to the stored URL with a
`/` separator (`"%s/%s"`) when it is a string starting with `/`, or raises
`InvalidUsage`; finally dispatches. -/
def PreparedRequest.custom (st : PreparedRequest) (env : Env) (method : String)
    (path_append : Option PyVal) (headers : Params) :
    Except PySnowErr (List Record) × PreparedRequest × List Ev :=
  let st :=
    if headers ≠ [] then { st with session_headers := headersUpdate st.session_headers headers }
    else st
  match path_append with
  | none =>
      let (st1, evs, req) := st.send method none none none
      (.ok (env req), st1, evs)
  | some pa =>
      match pa with
      | .vstr s =>
          if strStartsWith s "/" then
            let st := { st with url := st.url ++ "/" ++ s }
            let (st1, evs, req) := st.send method none none none
            (.ok (env req), st1, evs)
          else
            (.error (.invalidUsage pathAppendErrMsg), st, [])
      | _ =>
          (.error (.invalidUsage pathAppendErrMsg), st, [])

/-- `PreparedRequest.insert(payload)`: serialises the payload with
`json.dumps` (no type check) and dispatches a POST, then resolves to
exactly one record. -/
def PreparedRequest.insert (st : PreparedRequest) (env : Env) (payload : JVal) :
    Except PySnowErr Record × PreparedRequest × List Ev :=
  let (st1, evs, req) := st.send "POST" none none (some (jsonDumps payload))
  (responseOne (env req) st1.raise_on_empty, st1, evs)

/-- `PreparedRequest.update(query, payload)`: raises `InvalidUsage` unless
the payload is a dict; resolves the query via `get(...).one()`; extracts
the record's `sys_id`; dispatches a PUT at the identifier-suffixed URL and
resolves it to one record. -/
def PreparedRequest.update (st : PreparedRequest) (env : Env) (query : QuerySpec)
    (payload : JVal) : Except PySnowErr Record × PreparedRequest × List Ev :=
  if ¬ payload.isObj then
    (.error (.invalidUsage "Update payload must be of type dict"), st, [])
  else
    let (st1, evs1, records) := st.get env query [] none [] none
    match responseOne records st1.raise_on_empty with
    | .error e => (.error e, st1, evs1)
    | .ok record =>
        match recordGet record "sys_id" with
        | .error e => (.error e, st1, evs1)
        | .ok sid =>
            let url := st1.get_url (some (.vstr sid))
            let (st2, evs2, req2) := st1.send "PUT" (some url) none (some (jsonDumps payload))
            (responseOne (env req2) st2.raise_on_empty, st2, evs1 ++ evs2)

/-- `PreparedRequest.delete(query)`: resolves the query via
`get(...).one()`; extracts the record's `sys_id`; dispatches a DELETE at
the identifier-suffixed URL and resolves it to one record. -/
def PreparedRequest.delete (st : PreparedRequest) (env : Env) (query : QuerySpec) :
    Except PySnowErr Record × PreparedRequest × List Ev :=
  let (st1, evs1, records) := st.get env query [] none [] none
  match responseOne records st1.raise_on_empty with
  | .error e => (.error e, st1, evs1)
  | .ok record =>
      match recordGet record "sys_id" with
      | .error e => (.error e, st1, evs1)
      | .ok sid =>
          let url := st1.get_url (some (.vstr sid))
          let (st2, evs2, req2) := st1.send "DELETE" (some url) none none
          (responseOne (env req2) st2.raise_on_empty, st2, evs1 ++ evs2)

/-- The lookup GET issued by `update`/`delete` to resolve a query to a
unique record: `self.get(query=query)` with all other options defaulted. -/
def lookupRequest (st : PreparedRequest) (query : QuerySpec) : Request :=
  ⟨"GET", st.url, st.get_request_params query [] none [] none, none⟩

/-- The check `custom` applies to a non-`None` `path_append`:
`isinstance(path_append, str) and path_append.startswith('/')`. -/
def validPathAppend : PyVal → Bool
  | .vstr s => strStartsWith s "/"
  | _ => false

/-- No write to the report occurs anywhere in an event trace. -/
def noRecording (evs : List Ev) : Prop :=
  ∀ p, Ev.setReportParams p ∉ evs

/-- Decidable equality of pipeline results, for evaluating theorems at
concrete inputs. -/
instance {e a : Type} [DecidableEq e] [DecidableEq a] : DecidableEq (Except e a) := fun x y =>
  match x, y with
  | .error u, .error v =>
      if h : u = v then .isTrue (h ▸ rfl) else .isFalse (fun hc => h (Except.error.inj hc))
  | .ok u, .ok v =>
      if h : u = v then .isTrue (h ▸ rfl) else .isFalse (fun hc => h (Except.ok.inj hc))
  | .error _, .ok _ => .isFalse Except.noConfusion
  | .ok _, .error _ => .isFalse Except.noConfusion

/-- A concrete request context used to instantiate the theorems. -/
def fixtureState : PreparedRequest :=
  PreparedRequest.init [("k", "v")] (some 10) false true "https://inst" "/api/now"
    "/table/incident" []

/-- The same concrete context with reporting enabled. -/
def fixtureReporting : PreparedRequest :=
  PreparedRequest.init [("k", "v")] (some 10) true true "https://inst" "/api/now"
    "/table/incident" []

/-! ### Helper lemmas about the encoder -/

theorem set_fields_cap (q : Query) (fs : List String) : (q.set_fields fs).cap = q.cap := by
  cases fs <;> rfl

theorem set_fields_pageSize (q : Query) (fs : List String) :
    (q.set_fields fs).pageSize = q.pageSize := by
  cases fs <;> rfl

theorem set_fields_base (q : Query) (fs : List String) : (q.set_fields fs).base = q.base := by
  cases fs <;> rfl

theorem set_offset_cap (q : Query) (o : Option Int) : (q.set_offset o).cap = q.cap := rfl

theorem set_offset_pageSize (q : Query) (o : Option Int) :
    (q.set_offset o).pageSize = q.pageSize := rfl

theorem set_offset_base (q : Query) (o : Option Int) : (q.set_offset o).base = q.base := rfl

theorem set_sorting_cap (q : Query) (ob : List String) : (q.set_sorting ob).cap = q.cap := by
  cases ob <;> rfl

theorem set_sorting_pageSize (q : Query) (ob : List String) :
    (q.set_sorting ob).pageSize = q.pageSize := by
  cases ob <;> rfl

theorem set_sorting_base (q : Query) (ob : List String) : (q.set_sorting ob).base = q.base := by
  cases ob <;> rfl

theorem mem_optEntry (k k' v : String) (w : Option String) :
    (k', v) ∈ optEntry k w ↔ k' = k ∧ w = some v := by
  cases w
  · simp [optEntry]
  · simp [optEntry]
    try aesop

theorem mem_as_dict (q : Query) (k v : String) :
    (k, v) ∈ q.as_dict ↔
      (k, v) ∈ q.base ∨ (k = "query" ∧ v = q.filter) ∨
      (k = "record_cap" ∧ q.cap.map toString = some v) ∨
      (k = "page_size" ∧ q.pageSize.map toString = some v) ∨
      (k = "fields" ∧ q.fieldsParam = some v) ∨
      (k = "offset" ∧ q.offsetParam.map toString = some v) ∨
      (k = "sorting" ∧ q.sortParam = some v) := by
  simp [Query.as_dict, mem_optEntry, List.mem_append]
  try aesop

theorem finishers_preserve (q : Query) (fs : List String) (o : Option Int) (ob : List String) :
    (((q.set_fields fs).set_offset o).set_sorting ob).cap = q.cap ∧
    (((q.set_fields fs).set_offset o).set_sorting ob).pageSize = q.pageSize ∧
    (((q.set_fields fs).set_offset o).set_sorting ob).base = q.base := by
  refine ⟨?_, ?_, ?_⟩
  · rw [set_sorting_cap, set_offset_cap, set_fields_cap]
  · rw [set_sorting_pageSize, set_offset_pageSize, set_fields_pageSize]
  · rw [set_sorting_base, set_offset_base, set_fields_base]

theorem record_cap_in_as_dict (q : Query) (n : Int) (h : q.cap = some n) :
    ("record_cap", toString n) ∈ q.as_dict := by
  rw [mem_as_dict]
  exact Or.inr (Or.inr (Or.inl ⟨rfl, by rw [h]; rfl⟩))

theorem record_cap_not_in_as_dict (q : Query) (h : q.cap = none)
    (hb : ∀ v, ("record_cap", v) ∉ q.base) : ∀ v, ("record_cap", v) ∉ q.as_dict := by
  intro v hm
  rw [mem_as_dict] at hm
  rcases hm with hm | hm | hm | hm | hm | hm | hm
  · exact hb v hm
  · exact absurd hm.1 (by decide)
  · rw [h] at hm
    simp at hm
  · exact absurd hm.1 (by decide)
  · exact absurd hm.1 (by decide)
  · exact absurd hm.1 (by decide)
  · exact absurd hm.1 (by decide)

theorem page_size_in_as_dict (q : Query) (n : Int) (h : q.pageSize = some n) :
    ("page_size", toString n) ∈ q.as_dict := by
  rw [mem_as_dict]
  exact Or.inr (Or.inr (Or.inr (Or.inl ⟨rfl, by rw [h]; rfl⟩)))

theorem page_size_not_in_as_dict (q : Query) (h : q.pageSize = none)
    (hb : ∀ v, ("page_size", v) ∉ q.base) : ∀ v, ("page_size", v) ∉ q.as_dict := by
  intro v hm
  rw [mem_as_dict] at hm
  rcases hm with hm | hm | hm | hm | hm | hm | hm
  · exact hb v hm
  · exact absurd hm.1 (by decide)
  · exact absurd hm.1 (by decide)
  · rw [h] at hm
    simp at hm
  · exact absurd hm.1 (by decide)
  · exact absurd hm.1 (by decide)
  · exact absurd hm.1 (by decide)

/-- C1: in the params composed by `_get_request_params` (used by `get` and
by the lookup step of `update`/`delete`), a truthy `limit` puts the
record-cap parameter and never the generator page-size parameter in the
mapping; a falsy `limit` (`None` or `0`) puts the page-size parameter and
never the record-cap parameter — the two are mutually exclusive. -/
theorem limit_cap_excludes_page_size (st : PreparedRequest) (query : QuerySpec)
    (fields : List String) (limit : Option Int) (order_by : List String) (offset : Option Int)
    (hb1 : ∀ v, ("record_cap", v) ∉ st.request_params)
    (hb2 : ∀ v, ("page_size", v) ∉ st.request_params) :
    (limitTruthy limit = true →
      (∃ v, ("record_cap", v) ∈ st.get_request_params query fields limit order_by offset) ∧
      ∀ v, ("page_size", v) ∉ st.get_request_params query fields limit order_by offset) ∧
    (limitTruthy limit = false →
      (∃ v, ("page_size", v) ∈ st.get_request_params query fields limit order_by offset) ∧
      ∀ v, ("record_cap", v) ∉ st.get_request_params query fields limit order_by offset) := by
  cases limit with
  | none =>
      simp only [PreparedRequest.get_request_params]
      obtain ⟨hc, hp, hb⟩ :=
        finishers_preserve ((Query.make query st.request_params).set_generator_size
          st.generator_size) fields offset order_by
      constructor
      · intro h
        simp [limitTruthy] at h
      · intro _
        refine ⟨⟨_, page_size_in_as_dict _ (st.generator_size.getD systemDefaultPageSize)
          (hp.trans rfl)⟩, record_cap_not_in_as_dict _ (hc.trans rfl) ?_⟩
        intro v
        rw [hb]
        exact hb1 v
  | some n =>
      simp only [PreparedRequest.get_request_params]
      by_cases h0 : n = 0
      · subst h0
        rw [if_pos rfl]
        obtain ⟨hc, hp, hb⟩ :=
          finishers_preserve ((Query.make query st.request_params).set_generator_size
            st.generator_size) fields offset order_by
        constructor
        · intro h
          simp [limitTruthy] at h
        · intro _
          refine ⟨⟨_, page_size_in_as_dict _ (st.generator_size.getD systemDefaultPageSize)
            (hp.trans rfl)⟩, record_cap_not_in_as_dict _ (hc.trans rfl) ?_⟩
          intro v
          rw [hb]
          exact hb1 v
      · simp only [if_neg h0]
        obtain ⟨hc, hp, hb⟩ :=
          finishers_preserve ((Query.make query st.request_params).set_limit n) fields
            offset order_by
        constructor
        · intro _
          refine ⟨⟨_, record_cap_in_as_dict _ n (hc.trans rfl)⟩,
            page_size_not_in_as_dict _ (hp.trans rfl) ?_⟩
          intro v
          rw [hb]
          exact hb2 v
        · intro h
          simp [limitTruthy, h0] at h

/-- Witness for C1: a concrete context with a truthy and a falsy limit. -/
theorem limit_cap_excludes_page_size_witness :
    (∀ v, ("record_cap", v) ∉ (PreparedRequest.init [] none false true "https://i" "/api/now"
      "/table/incident" []).request_params) ∧
    (∀ v, ("page_size", v) ∉ (PreparedRequest.init [] none false true "https://i" "/api/now"
      "/table/incident" []).request_params) ∧
    (limitTruthy (some 25) = true →
      (∃ v, ("record_cap", v) ∈ (PreparedRequest.init [] none false true "https://i" "/api/now"
        "/table/incident" []).get_request_params (.qstr "q") [] (some 25) [] none) ∧
      ∀ v, ("page_size", v) ∉ (PreparedRequest.init [] none false true "https://i" "/api/now"
        "/table/incident" []).get_request_params (.qstr "q") [] (some 25) [] none) ∧
    (limitTruthy none = false →
      (∃ v, ("page_size", v) ∈ (PreparedRequest.init [] none false true "https://i" "/api/now"
        "/table/incident" []).get_request_params (.qstr "q") [] none [] none) ∧
      ∀ v, ("record_cap", v) ∉ (PreparedRequest.init [] none false true "https://i" "/api/now"
        "/table/incident" []).get_request_params (.qstr "q") [] none [] none) := by
  refine ⟨by simp [PreparedRequest.init], by simp [PreparedRequest.init], ?_, ?_⟩
  · exact (limit_cap_excludes_page_size (PreparedRequest.init [] none false true "https://i"
      "/api/now" "/table/incident" []) (.qstr "q") [] (some 25) [] none
      (by simp [PreparedRequest.init]) (by simp [PreparedRequest.init])).1
  · exact (limit_cap_excludes_page_size (PreparedRequest.init [] none false true "https://i"
      "/api/now" "/table/incident" []) (.qstr "q") [] none [] none
      (by simp [PreparedRequest.init]) (by simp [PreparedRequest.init])).2

/-! ### Helper lemmas about the dispatcher -/

theorem append_slash_ne (a b : String) : ¬(a ++ "/" ++ b = "") := by
  intro h
  have hl : (a ++ "/" ++ b).length = a.length + 1 + b.length := by
    simp [String.length_append]
    decide
  rw [h] at hl
  simp at hl
  omega

theorem httpOf_append (l1 l2 : List Ev) : httpOf (l1 ++ l2) = httpOf l1 ++ httpOf l2 := by
  simp [httpOf]

/-- C2: `update` and `delete` first resolve the query with a lookup GET;
when it yields exactly one record (with a non-empty identifier) they
dispatch exactly one mutation request (PUT resp. DELETE) at the
identifier-suffixed URL, after the lookup; when it yields zero or several
records, exactly the lookup request is dispatched and no mutation request
is ever issued. -/
theorem update_delete_two_step (st : PreparedRequest) (env : Env) (query : QuerySpec)
    (payload : JVal) (hpay : payload.isObj = true) :
    (∀ r sid, env (lookupRequest st query) = [r] → (r : List (String × String)).lookup "sys_id" = some sid →
      sid ≠ "" →
      httpOf (st.update env query payload).2.2 =
        [lookupRequest st query,
         ⟨"PUT", st.base_url ++ st.base_path ++ st.api_path ++ "/" ++ sid, st.request_params,
          some (jsonDumps payload)⟩] ∧
      httpOf (st.delete env query).2.2 =
        [lookupRequest st query,
         ⟨"DELETE", st.base_url ++ st.base_path ++ st.api_path ++ "/" ++ sid, st.request_params,
          none⟩]) ∧
    ((env (lookupRequest st query)).length ≠ 1 →
      httpOf (st.update env query payload).2.2 = [lookupRequest st query] ∧
      httpOf (st.delete env query).2.2 = [lookupRequest st query]) := by
  have hlu : lookupRequest st query =
      ⟨"GET", st.url, st.get_request_params query [] none [] none, none⟩ := rfl
  constructor
  · intro r sid h1 h2 h3
    rw [hlu] at h1
    by_cases hrep : st.enable_reporting <;>
      constructor <;>
        simp [PreparedRequest.update, PreparedRequest.delete, PreparedRequest.get,
          PreparedRequest.send, hpay, hrep, h1, responseOne, recordGet, h2,
          PreparedRequest.get_url, PyVal.truthy, h3, PyVal.render, lookupRequest, httpOf,
          append_slash_ne]
  · intro hlen
    rw [hlu] at hlen
    rcases hl : env ⟨"GET", st.url, st.get_request_params query [] none [] none, none⟩ with
      _ | ⟨a, _ | ⟨b, tl⟩⟩
    · by_cases hroe : st.raise_on_empty <;> by_cases hrep : st.enable_reporting <;>
        constructor <;>
          simp [PreparedRequest.update, PreparedRequest.delete, PreparedRequest.get,
            PreparedRequest.send, hpay, hrep, hroe, hl, responseOne, recordGet,
            lookupRequest, httpOf]
    · rw [hl] at hlen
      simp at hlen
    · by_cases hrep : st.enable_reporting <;>
        constructor <;>
          simp [PreparedRequest.update, PreparedRequest.delete, PreparedRequest.get,
            PreparedRequest.send, hpay, hrep, hl, responseOne, lookupRequest, httpOf]

/-- Witness for C2: a context whose lookup resolves to exactly one record. -/
theorem update_delete_two_step_witness :
    JVal.isObj (.jobj [("state", .jstr "2")]) = true ∧
    (httpOf ((fixtureState.update (fun _ => [[("sys_id", "a1b2")]]) (.qstr "number=INC1")
        (.jobj [("state", .jstr "2")])).2.2) =
      [lookupRequest fixtureState (.qstr "number=INC1"),
       ⟨"PUT",
        fixtureState.base_url ++ fixtureState.base_path ++ fixtureState.api_path ++ "/" ++ "a1b2",
        fixtureState.request_params, some (jsonDumps (.jobj [("state", .jstr "2")]))⟩] ∧
     httpOf ((fixtureState.delete (fun _ => [[("sys_id", "a1b2")]]) (.qstr "number=INC1")).2.2) =
      [lookupRequest fixtureState (.qstr "number=INC1"),
       ⟨"DELETE",
        fixtureState.base_url ++ fixtureState.base_path ++ fixtureState.api_path ++ "/" ++ "a1b2",
        fixtureState.request_params, none⟩]) :=
  ⟨rfl,
    (update_delete_two_step fixtureState (fun _ => [[("sys_id", "a1b2")]]) (.qstr "number=INC1")
      (.jobj [("state", .jstr "2")]) rfl).1 [("sys_id", "a1b2")] "a1b2" rfl (by decide)
      (by decide)⟩

/-- C3 counterexample: `custom` does not append `path_append` verbatim.
With the stored URL `u` and `path_append="/foo"` the stored URL becomes
`u ++ "//foo"` (the `"%s/%s"` format inserts a second separator), not
`u ++ "/foo"` as the claim states. -/
theorem custom_append_counterexample :
    ((fixtureState.custom (fun _ => []) "GET" (some (.vstr "/foo")) []).2.1.url
        ≠ fixtureState.url ++ "/foo") ∧
    ((fixtureState.custom (fun _ => []) "GET" (some (.vstr "/foo")) []).2.1.url
        = fixtureState.url ++ "//foo") := by
  constructor
  · decide
  · decide

/-- C3 (amended): for every `path_append` string beginning with `/`,
`custom` sets the stored URL to the old URL, a `/` separator, and the
appended string (so `"/foo"` yields `u ++ "//foo"`), dispatches this call
at that URL, and keeps the appended URL for subsequent calls from the same
request context. -/
theorem custom_append_amended (st : PreparedRequest) (env : Env) (m s : String)
    (headers : Params) (h : strStartsWith s "/" = true) :
    ((st.custom env m (some (.vstr s)) headers).2.1.url = st.url ++ "/" ++ s) ∧
    ((httpOf (st.custom env m (some (.vstr s)) headers).2.2).map Request.url
        = [st.url ++ "/" ++ s]) ∧
    ((((st.custom env m (some (.vstr s)) headers).2.1).custom env m none []).2.1.url
        = st.url ++ "/" ++ s) ∧
    ((httpOf (((st.custom env m (some (.vstr s)) headers).2.1).custom env m none []).2.2).map
        Request.url = [st.url ++ "/" ++ s]) := by
  by_cases hh : headers = [] <;> by_cases hrep : st.enable_reporting <;>
    refine ⟨?_, ?_, ?_, ?_⟩ <;>
      simp [PreparedRequest.custom, PreparedRequest.send, h, hh, hrep, httpOf]

/-- Witness for C3 (amended) at a concrete context. -/
theorem custom_append_amended_witness :
    (strStartsWith "/foo" "/" = true) ∧
    ((fixtureState.custom (fun _ => []) "GET" (some (.vstr "/foo")) []).2.1.url
        = fixtureState.url ++ "/" ++ "/foo") ∧
    ((httpOf (fixtureState.custom (fun _ => []) "GET" (some (.vstr "/foo")) []).2.2).map
        Request.url = [fixtureState.url ++ "/" ++ "/foo"]) ∧
    ((((fixtureState.custom (fun _ => []) "GET" (some (.vstr "/foo")) []).2.1).custom
        (fun _ => []) "GET" none []).2.1.url = fixtureState.url ++ "/" ++ "/foo") ∧
    ((httpOf (((fixtureState.custom (fun _ => []) "GET" (some (.vstr "/foo")) []).2.1).custom
        (fun _ => []) "GET" none []).2.2).map Request.url
        = [fixtureState.url ++ "/" ++ "/foo"]) :=
  ⟨rfl, custom_append_amended fixtureState (fun _ => []) "GET" "/foo" [] rfl⟩

/-- C4 counterexample: a `custom` call with malformed `path_append` and
non-empty `headers` does have a partial side effect — the shared session's
headers are updated before the `path_append` check fires, so they differ
from their value before the failed call. -/
theorem custom_header_leak_counterexample :
    ((fixtureState.custom (fun _ => []) "GET" (some (.vstr "foo")) [("X-Test", "1")]).1
        = .error (.invalidUsage pathAppendErrMsg)) ∧
    ((fixtureState.custom (fun _ => []) "GET" (some (.vstr "foo")) [("X-Test", "1")]).2.2
        = []) ∧
    ((fixtureState.custom (fun _ => []) "GET"
        (some (.vstr "foo")) [("X-Test", "1")]).2.1.session_headers
        ≠ fixtureState.session_headers) := by
  refine ⟨by decide, by decide, by decide⟩

/-- C4 (amended): for a malformed `path_append` and non-empty `headers`,
`custom` raises `InvalidUsage` before any network I/O (no request event is
emitted) and leaves the stored URL unchanged, but the shared session's
headers are updated with the supplied mapping before the check, so the
failed call does mutate session state. -/
theorem custom_header_leak_amended (st : PreparedRequest) (env : Env) (m : String)
    (pa : PyVal) (headers : Params) (hpa : validPathAppend pa = false) (hh : headers ≠ []) :
    (st.custom env m (some pa) headers).1 = .error (.invalidUsage pathAppendErrMsg) ∧
    (st.custom env m (some pa) headers).2.2 = [] ∧
    (st.custom env m (some pa) headers).2.1.url = st.url ∧
    (st.custom env m (some pa) headers).2.1.session_headers
        = headersUpdate st.session_headers headers := by
  cases pa with
  | vstr s =>
      simp only [validPathAppend] at hpa
      refine ⟨?_, ?_, ?_, ?_⟩ <;> simp [PreparedRequest.custom, hpa, hh]
  | vint n =>
      refine ⟨?_, ?_, ?_, ?_⟩ <;> simp [PreparedRequest.custom, hh]

/-- Witness for C4 (amended) at a concrete context. -/
theorem custom_header_leak_amended_witness :
    (validPathAppend (.vstr "foo") = false) ∧ ([("X-Test", "1")] ≠ ([] : Params)) ∧
    ((fixtureState.custom (fun _ => []) "GET" (some (.vstr "foo")) [("X-Test", "1")]).1
        = .error (.invalidUsage pathAppendErrMsg) ∧
      (fixtureState.custom (fun _ => []) "GET" (some (.vstr "foo")) [("X-Test", "1")]).2.2 = [] ∧
      (fixtureState.custom (fun _ => []) "GET"
        (some (.vstr "foo")) [("X-Test", "1")]).2.1.url = fixtureState.url ∧
      (fixtureState.custom (fun _ => []) "GET"
        (some (.vstr "foo")) [("X-Test", "1")]).2.1.session_headers
        = headersUpdate fixtureState.session_headers [("X-Test", "1")]) :=
  ⟨by decide, by decide,
    custom_header_leak_amended fixtureState (fun _ => []) "GET" (.vstr "foo")
      [("X-Test", "1")] (by decide) (by decide)⟩

/-- C5: a `path_append` that is not a string beginning with `/` (a string
without the leading separator, or a non-string value) makes `custom` raise
`InvalidUsage` and dispatch no HTTP request; `path_append=None` skips the
check and dispatches at the unmodified stored URL. -/
theorem custom_path_append_validation (st : PreparedRequest) (env : Env) (m : String)
    (headers : Params) :
    (∀ pa : PyVal, validPathAppend pa = false →
      (st.custom env m (some pa) headers).1 = .error (.invalidUsage pathAppendErrMsg) ∧
      httpOf (st.custom env m (some pa) headers).2.2 = []) ∧
    (httpOf (st.custom env m none headers).2.2 = [⟨m, st.url, st.request_params, none⟩] ∧
      (st.custom env m none headers).2.1.url = st.url) := by
  constructor
  · intro pa hpa
    cases pa with
    | vstr s =>
        simp only [validPathAppend] at hpa
        by_cases hh : headers = [] <;>
          constructor <;> simp [PreparedRequest.custom, hpa, hh, httpOf]
    | vint n =>
        by_cases hh : headers = [] <;>
          constructor <;> simp [PreparedRequest.custom, hh, httpOf]
  · by_cases hh : headers = [] <;> by_cases hrep : st.enable_reporting <;>
      constructor <;>
        simp [PreparedRequest.custom, PreparedRequest.send, hh, hrep, httpOf]

/-- Witness for C5: malformed strings and non-strings are rejected without
dispatch; `None` dispatches at the stored URL. -/
theorem custom_path_append_validation_witness :
    (validPathAppend (.vstr "foo") = false) ∧ (validPathAppend (.vint 7) = false) ∧
    ((fixtureState.custom (fun _ => []) "GET" (some (.vstr "foo")) []).1
        = .error (.invalidUsage pathAppendErrMsg)) ∧
    (httpOf (fixtureState.custom (fun _ => []) "GET" (some (.vint 7)) []).2.2 = []) ∧
    (httpOf (fixtureState.custom (fun _ => []) "GET" none []).2.2
        = [⟨"GET", fixtureState.url, fixtureState.request_params, none⟩]) :=
  ⟨by decide, by decide,
    ((custom_path_append_validation fixtureState (fun _ => []) "GET" []).1
      (.vstr "foo") (by decide)).1,
    ((custom_path_append_validation fixtureState (fun _ => []) "GET" []).1
      (.vint 7) (by decide)).2,
    (custom_path_append_validation fixtureState (fun _ => []) "GET" []).2.1⟩

/-- C6: `update` with a non-dict payload raises `InvalidUsage` before any
request is dispatched — the trace is empty (so no lookup GET either) and
the returned state is exactly the input state. -/
theorem update_rejects_non_dict (st : PreparedRequest) (env : Env) (query : QuerySpec)
    (payload : JVal) (h : payload.isObj = false) :
    st.update env query payload
      = (.error (.invalidUsage "Update payload must be of type dict"), st, []) := by
  simp [PreparedRequest.update, h]

/-- Witness for C6: a string payload is rejected with no dispatch. -/
theorem update_rejects_non_dict_witness :
    (JVal.isObj (.jstr "not-a-dict") = false) ∧
    fixtureState.update (fun _ => []) (.qstr "number=INC1") (.jstr "not-a-dict")
      = (.error (.invalidUsage "Update payload must be of type dict"), fixtureState, []) :=
  ⟨rfl, update_rejects_non_dict fixtureState (fun _ => []) (.qstr "number=INC1")
    (.jstr "not-a-dict") rfl⟩

/-- C7: `_send` builds the request with exactly the `params` value from the
keyword arguments when one is supplied (the per-request defaults are
ignored entirely, with no per-key merging), and with the per-request
defaults when none is supplied. -/
theorem send_params_override (st : PreparedRequest) (m : String) (uo : Option String)
    (d : Option String) :
    (∀ p : Params, ((st.send m uo (some p) d).2.2).params = p) ∧
    ((st.send m uo none d).2.2).params = st.request_params := by
  constructor
  · intro p
    rfl
  · rfl

/-- C8: with reporting enabled, `_send` writes the final merged params into
the report before the HTTP request event, and the new state's report holds
them; with reporting disabled, the report reference is `None` from
construction on, stays `None` across every operation, and no recording
event ever occurs on any operation. -/
theorem reporting_lifecycle (st stD : PreparedRequest) (r : Report)
    (henb : st.enable_reporting = true) (hrep : st.report = some r)
    (hdis : stD.enable_reporting = false) (hnone : stD.report = none)
    (rp sh headers : Params) (gs : Option Int) (roe : Bool) (bu bp ap m : String)
    (uo : Option String) (po : Option Params) (d : Option String)
    (env : Env) (query : QuerySpec) (fields : List String) (limit : Option Int)
    (order_by : List String) (offset : Option Int) (payload : JVal) (pa : Option PyVal) :
    ((st.send m uo po d).2.1
        = [.setReportParams (po.getD st.request_params), .http (st.send m uo po d).2.2] ∧
      (st.send m uo po d).1.report = some ⟨some (po.getD st.request_params)⟩) ∧
    ((PreparedRequest.init rp gs false roe bu bp ap sh).report = none ∧
      (stD.send m uo po d).1.report = none ∧ noRecording (stD.send m uo po d).2.1 ∧
      (stD.get env query fields limit order_by offset).1.report = none ∧
      noRecording (stD.get env query fields limit order_by offset).2.1 ∧
      (stD.insert env payload).2.1.report = none ∧
      noRecording (stD.insert env payload).2.2 ∧
      (stD.update env query payload).2.1.report = none ∧
      noRecording (stD.update env query payload).2.2 ∧
      (stD.delete env query).2.1.report = none ∧
      noRecording (stD.delete env query).2.2 ∧
      (stD.custom env m pa headers).2.1.report = none ∧
      noRecording (stD.custom env m pa headers).2.2) := by
  constructor
  · constructor
    · simp [PreparedRequest.send, henb]
    · simp [PreparedRequest.send, henb, hrep]
  · refine ⟨by simp [PreparedRequest.init], ?_, ?_, ?_, ?_, ?_, ?_, ?_, ?_, ?_, ?_, ?_, ?_⟩
    · simp [PreparedRequest.send, hdis, hnone]
    · simp [PreparedRequest.send, hdis, noRecording]
    · simp [PreparedRequest.get, PreparedRequest.send, hdis, hnone]
    · simp [PreparedRequest.get, PreparedRequest.send, hdis, noRecording]
    · simp [PreparedRequest.insert, PreparedRequest.send, hdis, hnone]
    · simp [PreparedRequest.insert, PreparedRequest.send, hdis, noRecording]
    · by_cases hobj : payload.isObj
      all_goals
        simp [PreparedRequest.update, PreparedRequest.get, PreparedRequest.send, hdis,
          hnone, hobj]
      all_goals repeat' split
      all_goals simp [hnone]
    · by_cases hobj : payload.isObj
      all_goals
        simp [PreparedRequest.update, PreparedRequest.get, PreparedRequest.send, hdis,
          noRecording, hobj]
      all_goals repeat' split
      all_goals simp
    · simp [PreparedRequest.delete, PreparedRequest.get, PreparedRequest.send, hdis, hnone]
      all_goals repeat' split
      all_goals simp [hnone]
    · simp [PreparedRequest.delete, PreparedRequest.get, PreparedRequest.send, hdis,
        noRecording]
      all_goals repeat' split
      all_goals simp
    · cases pa with
      | none =>
          by_cases hh : headers = [] <;>
            simp [PreparedRequest.custom, PreparedRequest.send, hdis, hnone, hh]
      | some v =>
          cases v with
          | vstr s =>
              by_cases hsl : strStartsWith s "/" <;> by_cases hh : headers = [] <;>
                simp [PreparedRequest.custom, PreparedRequest.send, hdis, hnone, hh, hsl]
          | vint n =>
              by_cases hh : headers = [] <;>
                simp [PreparedRequest.custom, PreparedRequest.send, hdis, hnone, hh]
    · cases pa with
      | none =>
          by_cases hh : headers = [] <;>
            simp [PreparedRequest.custom, PreparedRequest.send, hdis, noRecording, hh]
      | some v =>
          cases v with
          | vstr s =>
              by_cases hsl : strStartsWith s "/" <;> by_cases hh : headers = [] <;>
                simp [PreparedRequest.custom, PreparedRequest.send, hdis, noRecording, hh,
                  hsl]
          | vint n =>
              by_cases hh : headers = [] <;>
                simp [PreparedRequest.custom, PreparedRequest.send, hdis, noRecording, hh]

/-- Witness for C8 at concrete enabled and disabled contexts. -/
theorem reporting_lifecycle_witness :
    (fixtureReporting.enable_reporting = true) ∧
    (fixtureReporting.report = some ⟨none⟩) ∧
    (fixtureState.enable_reporting = false) ∧
    (fixtureState.report = none) ∧
    ((fixtureReporting.send "GET" none none none).2.1
        = [.setReportParams (Option.getD none fixtureReporting.request_params),
           .http (fixtureReporting.send "GET" none none none).2.2]) ∧
    ((fixtureReporting.send "GET" none none none).1.report
        = some ⟨some (Option.getD none fixtureReporting.request_params)⟩) ∧
    ((PreparedRequest.init [] none false true "u" "p" "a" []).report = none) :=
  ⟨rfl, rfl, rfl, rfl,
    (reporting_lifecycle fixtureReporting fixtureState ⟨none⟩ rfl rfl rfl rfl [] [] [] none
      true "u" "p" "a" "GET" none none none (fun _ => []) (.qstr "q") [] none [] none .jnull
      none).1.1,
    (reporting_lifecycle fixtureReporting fixtureState ⟨none⟩ rfl rfl rfl rfl [] [] [] none
      true "u" "p" "a" "GET" none none none (fun _ => []) (.qstr "q") [] none [] none .jnull
      none).1.2,
    (reporting_lifecycle fixtureReporting fixtureState ⟨none⟩ rfl rfl rfl rfl [] [] [] none
      true "u" "p" "a" "GET" none none none (fun _ => []) (.qstr "q") [] none [] none .jnull
      none).2.1⟩

/-- C9: `_get_url` treats a falsy `sys_id` (`None`, `""`, `0`) as absent
and returns the plain concatenation of the three base segments; a truthy
`sys_id` yields that concatenation followed by `/` and the rendered
identifier. -/
theorem get_url_falsy_sys_id (st : PreparedRequest) :
    (st.get_url none = st.base_url ++ st.base_path ++ st.api_path) ∧
    (st.get_url (some (.vstr "")) = st.base_url ++ st.base_path ++ st.api_path) ∧
    (st.get_url (some (.vint 0)) = st.base_url ++ st.base_path ++ st.api_path) ∧
    (∀ v : PyVal, v.truthy = false →
      st.get_url (some v) = st.base_url ++ st.base_path ++ st.api_path) ∧
    (∀ v : PyVal, v.truthy = true →
      st.get_url (some v) = st.base_url ++ st.base_path ++ st.api_path ++ "/" ++ v.render) := by
  refine ⟨rfl, by simp [PreparedRequest.get_url, PyVal.truthy],
    by simp [PreparedRequest.get_url, PyVal.truthy], ?_, ?_⟩
  · intro v hv
    simp [PreparedRequest.get_url, hv]
  · intro v hv
    simp [PreparedRequest.get_url, hv]

/-- Witness for C9 at a concrete state, with a truthy and a falsy value. -/
theorem get_url_falsy_sys_id_witness :
    ((PyVal.vstr "a1b2").truthy = true) ∧ ((PyVal.vint 0).truthy = false) ∧
    (fixtureState.get_url (some (.vstr "a1b2"))
        = fixtureState.base_url ++ fixtureState.base_path ++ fixtureState.api_path ++ "/"
          ++ (PyVal.vstr "a1b2").render) ∧
    (fixtureState.get_url (some (.vint 0))
        = fixtureState.base_url ++ fixtureState.base_path ++ fixtureState.api_path) :=
  ⟨by decide, by decide,
    (get_url_falsy_sys_id fixtureState).2.2.2.2 (.vstr "a1b2") (by decide),
    (get_url_falsy_sys_id fixtureState).2.2.2.1 (.vint 0) (by decide)⟩

theorem responseOne_not_invalid (l : List Record) (b : Bool) (msg : String) :
    responseOne l b ≠ .error (.invalidUsage msg) := by
  rcases l with _ | ⟨a, _ | ⟨c, tl⟩⟩ <;> cases b <;> simp [responseOne]

/-- C10: `insert` performs no payload type validation — any payload,
mapping or not, is serialised with `json.dumps` and dispatched as a single
POST, and the result is never an `InvalidUsage` error; `update`, by
contrast, rejects every non-mapping payload before dispatching anything. -/
theorem insert_no_payload_validation (st : PreparedRequest) (env : Env) (payload : JVal)
    (query : QuerySpec) :
    (httpOf (st.insert env payload).2.2
        = [⟨"POST", st.url, st.request_params, some (jsonDumps payload)⟩]) ∧
    (∀ msg, (st.insert env payload).1 ≠ .error (.invalidUsage msg)) ∧
    (payload.isObj = false →
      st.update env query payload
        = (.error (.invalidUsage "Update payload must be of type dict"), st, [])) := by
  refine ⟨?_, ?_, ?_⟩
  · by_cases hrep : st.enable_reporting <;>
      simp [PreparedRequest.insert, PreparedRequest.send, hrep, httpOf]
  · intro msg
    show responseOne _ _ ≠ _
    exact responseOne_not_invalid _ _ msg
  · intro hobj
    simp [PreparedRequest.update, hobj]

/-- Witness for C10: a list payload is inserted (one POST, no usage error)
but rejected by `update`. -/
theorem insert_no_payload_validation_witness :
    (JVal.isObj (.jarr [.jint 1, .jstr "x"]) = false) ∧
    (httpOf (fixtureState.insert (fun _ => []) (.jarr [.jint 1, .jstr "x"])).2.2
        = [⟨"POST", fixtureState.url, fixtureState.request_params,
            some (jsonDumps (.jarr [.jint 1, .jstr "x"]))⟩]) ∧
    ((fixtureState.insert (fun _ => []) (.jarr [.jint 1, .jstr "x"])).1
        ≠ .error (.invalidUsage "Update payload must be of type dict")) ∧
    (fixtureState.update (fun _ => []) (.qstr "number=INC1") (.jarr [.jint 1, .jstr "x"])
        = (.error (.invalidUsage "Update payload must be of type dict"), fixtureState, [])) :=
  ⟨rfl,
    (insert_no_payload_validation fixtureState (fun _ => []) (.jarr [.jint 1, .jstr "x"])
      (.qstr "number=INC1")).1,
    (insert_no_payload_validation fixtureState (fun _ => []) (.jarr [.jint 1, .jstr "x"])
      (.qstr "number=INC1")).2.1 "Update payload must be of type dict",
    (insert_no_payload_validation fixtureState (fun _ => []) (.jarr [.jint 1, .jstr "x"])
      (.qstr "number=INC1")).2.2 rfl⟩
